import Mathlib

/-!
Verification of the test-flakiness-detector core against its specification.

The development shallowly embeds the detection algorithm of
`src/detector.ts`, the multi-tier API of `src/api.ts` and the
formatters of `src/formatters.ts`.  The shell execution primitive
(`spawnSync`) is treated as an oracle: a detection pass is a pure
function of the command, the configuration and the oracle.  JavaScript
numbers are modelled exactly (rationals plus NaN and the infinities);
arithmetic on the values exercised here is exact in both models.
-/

namespace Flaky

/-- JavaScript number: NaN, an infinity, or a finite value (modelled exactly
as a rational). -/
inductive JSNum
  | nan
  | posInf
  | negInf
  | fin (q : ℚ)
deriving DecidableEq, Repr

/-- Mirror of `Number.isFinite`. -/
def JSNum.isFinite : JSNum → Bool
  | .fin _ => true
  | _ => false

/-- Mirror of the JavaScript `<` comparison (false whenever either side is
NaN). -/
def JSNum.lt : JSNum → JSNum → Bool
  | .nan, _ => false
  | _, .nan => false
  | .negInf, .negInf => false
  | .negInf, _ => true
  | _, .negInf => false
  | .posInf, _ => false
  | .fin _, .posInf => true
  | .fin a, .fin b => decide (a < b)

/-- Mirror of the JavaScript `>` comparison. -/
def JSNum.gt (a b : JSNum) : Bool := JSNum.lt b a

/-- Finite value of a JavaScript number (only consulted on finite inputs). -/
def JSNum.toRat : JSNum → ℚ
  | .fin q => q
  | _ => 0

/-- Result of a single test run (`TestRunResult` in `src/types.ts`). -/
structure TestRunResult where
  success : Bool
  exitCode : Int
  stdout : String
  stderr : String
deriving DecidableEq, Repr

/-- Flakiness statistics for one classification unit (`TestFlakiness` in
`src/types.ts`).  `totalRuns` and `failureRate` are JavaScript numbers,
modelled exactly as rationals. -/
structure TestFlakiness where
  testName : String
  passed : ℕ
  failed : ℕ
  totalRuns : ℚ
  failureRate : ℚ
deriving DecidableEq, Repr

/-- Complete detection report (`DetectionReport` in `src/types.ts`). -/
structure DetectionReport where
  success : Bool
  totalRuns : ℚ
  passedRuns : ℕ
  failedRuns : ℕ
  flakyTests : List TestFlakiness
  runs : List TestRunResult
  error : Option String := none
deriving DecidableEq, Repr

/-- Outcome of one call to the shell execution primitive (`spawnSync`):
either it returns with an exit status (null when the process was killed by
a signal) and captured output, or it throws before producing a status. -/
inductive ExecOutcome
  | ok (status : Option Int) (stdout stderr : String)
  | threw (message : String)
deriving DecidableEq, Repr

/-- An execution oracle gives the outcome of the i-th spawn of this
detection pass. -/
def ExecOracle : Type := ℕ → ExecOutcome

/-- Mirror of `runTestOnce` (`src/detector.ts` lines 16-44): classify the
spawn outcome, normalizing a missing status to exit code 1 and turning a
thrown spawn error into a failed result whose stderr carries the message
(with the literal fallback used when the message is empty). -/
def runTestOnce : ExecOutcome → TestRunResult
  | .ok status out err =>
      { success := status = some 0
        exitCode := status.getD 1
        stdout := out
        stderr := err }
  | .threw msg =>
      { success := false
        exitCode := 1
        stdout := ""
        stderr := if msg = "" then "Command execution failed" else msg }

/-- Mirror of the run-count validation of `detectFlakiness`
(`src/detector.ts` line 83):
`typeof runs !== 'number' || !Number.isFinite(runs) || runs < 1 || runs > 1000`. -/
def runsInvalid (runs : JSNum) : Bool :=
  !runs.isFinite || runs.lt (.fin 1) || runs.gt (.fin 1000)

/-- Modelled from the spec: the threshold validation of the Detection Loop
is missing from the source snapshot (only its tests in
`test/threshold.test.ts` and its CLI caller are present); spec section 4.1
requires a finite number with 0 <= threshold <= 100, rejected with the
message asserted by the tests. -/
def thresholdInvalid (threshold : JSNum) : Bool :=
  !threshold.isFinite || threshold.lt (.fin 0) || threshold.gt (.fin 100)

/-- Configuration consumed by the Detection Loop (`Config` in
`src/types.ts`; `runs` and `threshold` are optional JavaScript numbers,
`none` standing for `undefined`). -/
structure Config where
  testCommand : String
  runs : Option JSNum := none
  verbose : Bool := false
  threshold : Option JSNum := none
deriving DecidableEq, Repr

/-- Error report returned on a failed validation (`src/detector.ts`
lines 72-92): zeroed counters, empty sequences and the message. -/
def errorReport (msg : String) : DetectionReport :=
  { success := false
    totalRuns := 0
    passedRuns := 0
    failedRuns := 0
    flakyTests := []
    runs := []
    error := some msg }

/-- Number of iterations of `for (let i = 0; i < runs; i++)` when `runs`
holds the rational value `q`: the number of naturals strictly below `q`. -/
def jsLoopCount (q : ℚ) : ℕ := (Int.toNat ⌈q⌉)

/-- Mirror of `detectFlakiness` (`src/detector.ts` lines 68-178): validate
the command and the run count, execute the command `runs` times through the
oracle, tally passes and failures, and classify.  The threshold parameter
and its validation are modelled from the spec (sections 4.1 and 4.4,
pinned by `test/threshold.test.ts`); the source snapshot hard-codes the
threshold-zero behaviour.  The external progress sink (`progress.init`,
`progress.increment`, ...) is fire-and-forget and does not influence the
report, so it is not represented. -/
def detectFlakiness (config : Config) (exec : ExecOracle) : DetectionReport :=
  let runs := config.runs.getD (.fin 10)
  let threshold := config.threshold.getD (.fin 0)
  if config.testCommand = "" then
    errorReport "Test command must be a non-empty string"
  else if runsInvalid runs then
    errorReport "Runs must be between 1 and 1000"
  else if thresholdInvalid threshold then
    errorReport "Threshold must be between 0 and 100"
  else
    let q := runs.toRat
    let t := threshold.toRat
    let n := jsLoopCount q
    let results := (List.range n).map fun i => runTestOnce (exec i)
    let passedRuns := results.countP fun r => r.success
    let failedRuns := results.countP fun r => !r.success
    let flakyTests :=
      if 0 < passedRuns ∧ 0 < failedRuns then
        let failureRate : ℚ := ((failedRuns : ℚ) / q) * 100
        if t < failureRate then
          [{ testName := "Test Suite"
             passed := passedRuns
             failed := failedRuns
             totalRuns := q
             failureRate := failureRate }]
        else []
      else []
    { success := true
      totalRuns := q
      passedRuns := passedRuns
      failedRuns := failedRuns
      flakyTests := flakyTests
      runs := results }

/-- Modelled from the spec: the Classifier of section 4.4
(`classify(passed, failed, total, threshold) -> FlakeStat[]`) is not a
standalone function in the source snapshot (the threshold-free variant is
inlined in `detectFlakiness`, `src/detector.ts` lines 137-148, and the
thresholded variant is pinned by `test/threshold.test.ts`): flakiness
requires both a pass and a failure, and the single FlakeStat is included
iff the failure rate strictly exceeds the threshold. -/
def classify (passed failed total : ℕ) (threshold : ℚ) : List TestFlakiness :=
  if 0 < passed ∧ 0 < failed then
    let failureRate : ℚ := ((failed : ℚ) / (total : ℚ)) * 100
    if threshold < failureRate then
      [{ testName := "Test Suite"
         passed := passed
         failed := failed
         totalRuns := (total : ℚ)
         failureRate := failureRate }]
    else []
  else []

/-- Result type for non-throwing error handling (`Result<T>` in
`src/types.ts`); the error is carried as its message string. -/
inductive Result (α : Type)
  | ok (value : α)
  | err (message : String)
deriving DecidableEq, Repr

/-- Options of the `detect()` entry point (`DetectOptions` in
`src/types.ts`). -/
structure DetectOptions where
  test : String
  runs : Option JSNum := none
  verbose : Bool := false
  threshold : Option JSNum := none
deriving DecidableEq, Repr

/-- Options of the `isFlaky()` entry point (`IsFlakyOptions` in
`src/types.ts`). -/
structure IsFlakyOptions where
  test : String
  runs : Option JSNum := none
  threshold : Option JSNum := none
deriving DecidableEq, Repr

/-- Options of the `compileDetector()` entry point (`CompileOptions` in
`src/types.ts`). -/
structure CompileOptions where
  test : String
  verbose : Bool := false
  threshold : Option JSNum := none
deriving DecidableEq, Repr

/-- Mirror of `detect` (`src/api.ts`, `src/detector.ts` concatenation
lines 225-270): validate the command and the run count (default 10), run
the Detection Loop, wrap the outcome in a Result.  The threshold is passed
through to the Detection Loop (modelled from the spec; the snapshot of
`api.ts` predates the threshold option declared in `src/types.ts`). -/
def detect (options : DetectOptions) (exec : ExecOracle) : Result DetectionReport :=
  if options.test = "" then
    .err "Test command must be a non-empty string"
  else
    let runs := options.runs.getD (.fin 10)
    if runsInvalid runs then
      .err "Runs must be between 1 and 1000"
    else
      let report := detectFlakiness
        { testCommand := options.test
          runs := some runs
          verbose := options.verbose
          threshold := options.threshold } exec
      if report.success then .ok report
      else .err (report.error.getD "Detection failed")

/-- Mirror of the stricter run-count validation of `isFlaky`
(`src/detector.ts` concatenation line 314):
`typeof runs !== 'number' || !Number.isFinite(runs) || runs < 2 || runs > 1000`. -/
def isFlakyRunsInvalid (runs : JSNum) : Bool :=
  !runs.isFinite || runs.lt (.fin 2) || runs.gt (.fin 1000)

/-- Mirror of `isFlaky` (`src/detector.ts` concatenation lines 303-351):
validate with the stricter bound (default 5), run the Detection Loop,
discard the report and return whether any flaky test was found. -/
def isFlaky (options : IsFlakyOptions) (exec : ExecOracle) : Result Bool :=
  if options.test = "" then
    .err "Test command must be a non-empty string"
  else
    let runs := options.runs.getD (.fin 5)
    if isFlakyRunsInvalid runs then
      .err "Runs must be between 2 and 1000"
    else
      let report := detectFlakiness
        { testCommand := options.test
          runs := some runs
          verbose := false
          threshold := options.threshold } exec
      if report.success then .ok (decide (0 < report.flakyTests.length))
      else .err (report.error.getD "Detection failed")

/-- A compiled detector: the closure created by `compileDetector` captures
the validated options (`CompiledDetector` in `src/types.ts`). -/
structure CompiledDetector where
  options : CompileOptions
deriving DecidableEq, Repr

/-- Mirror of `compileDetector` (`src/detector.ts` concatenation
lines 384-439): the command is validated eagerly at construction time and
an invalid command throws (modelled as `Except.error`) rather than being
returned through the Result wrapper. -/
def compileDetector (options : CompileOptions) : Except String CompiledDetector :=
  if options.test = "" then
    .error "Test command must be a non-empty string"
  else
    .ok { options := options }

/-- Mirror of `run` on a compiled detector (`src/detector.ts` concatenation
lines 392-427): re-validate only the run count, re-enter the Detection
Loop with the captured command, wrap the outcome in a Result. -/
def CompiledDetector.run (d : CompiledDetector) (runs : JSNum)
    (exec : ExecOracle) : Result DetectionReport :=
  if runsInvalid runs then
    .err "Runs must be between 1 and 1000"
  else
    let report := detectFlakiness
      { testCommand := d.options.test
        runs := some runs
        verbose := d.options.verbose
        threshold := d.options.threshold } exec
    if report.success then .ok report
    else .err (report.error.getD "Detection failed")

/-- Mirror of `formatMinimal` (`src/formatters.ts` lines 115-123): the
empty string for error reports or when there is no flaky test, otherwise
the newline-joined test names. -/
def formatMinimal (report : DetectionReport) : String :=
  if !report.success || report.flakyTests.length = 0 then ""
  else String.intercalate "\n" (report.flakyTests.map fun t => t.testName)

/-- Progress event (`ProgressEvent` in `src/types.ts`, spec section 3):
a discriminated union of the four event shapes. -/
inductive ProgressEvent
  | start (totalRuns : ℕ)
  | runStart (runNumber totalRuns : ℕ)
  | runComplete (runNumber totalRuns : ℕ) (success : Bool) (exitCode : Int)
  | complete (report : DetectionReport)
deriving DecidableEq, Repr

/-- Modelled from the spec: the progress events emitted by the Detection
Loop (spec section 4.3, pinned by `test/streaming.test.ts`; the event
emission is missing from the source snapshot of `detectFlakiness`).  After
a passed validation the loop emits `start`, then `run-start` and
`run-complete` for each run `i` in `1..n`, then `complete` carrying the
full report; a failed validation emits nothing. -/
def detectEvents (config : Config) (exec : ExecOracle) : List ProgressEvent :=
  let runs := config.runs.getD (.fin 10)
  let threshold := config.threshold.getD (.fin 0)
  if config.testCommand = "" ∨ runsInvalid runs ∨ thresholdInvalid threshold then
    []
  else
    let n := jsLoopCount runs.toRat
    .start n :: (((List.range n).map fun i =>
        let r := runTestOnce (exec i)
        [ProgressEvent.runStart (i + 1) n,
         ProgressEvent.runComplete (i + 1) n r.success r.exitCode]).flatten
      ++ [.complete (detectFlakiness config exec)])

/-- A user callback may throw: it is modelled in the exception monad,
`Except.error` standing for a thrown exception. -/
def Callback : Type := ProgressEvent → Except String Unit

/-- Modelled from the spec: every call site of the user callback is
wrapped in try/catch and an exception is discarded at the point of
invocation (spec sections 4.3 and 5, pinned by the streaming test on
throwing callbacks). -/
def safeEmit (cb : Callback) (e : ProgressEvent) : Except String Unit :=
  match cb e with
  | .ok _ => .ok ()
  | .error _ => .ok ()

/-- Modelled from the spec: the Detection Loop with a supplied `onProgress`
callback emits each progress event to the callback through the try/catch
wrapper and returns the report; an unhandled exception would surface as
`Except.error`. -/
def detectFlakinessWithCallback (config : Config) (cb : Callback)
    (exec : ExecOracle) : Except String DetectionReport := do
  (detectEvents config exec).forM fun e => safeEmit cb e
  pure (detectFlakiness config exec)

/-! Concrete execution oracles used to evaluate the definitions. -/

/-- Oracle whose every spawn exits with status 0. -/
def execAllPass : ExecOracle := fun _ => .ok (some 0) "" ""

/-- Oracle whose every spawn exits with status 1. -/
def execAllFail : ExecOracle := fun _ => .ok (some 1) "" ""

/-! General helper lemmas. -/

/-- Counting a predicate and its complement over a list covers its length. -/
theorem countP_add_countP_not {α : Type} (p : α → Bool) (l : List α) :
    l.countP p + l.countP (fun a => !p a) = l.length := by
  induction l with
  | nil => simp
  | cons a l ih =>
    by_cases h : p a = true <;>
      simp [List.countP_cons, h, ← ih] <;> omega

/-- Flattening a map that yields two elements per input doubles the length. -/
theorem length_flatten_pairs {α β : Type} (f : β → List α) (l : List β)
    (h : ∀ b, (f b).length = 2) : ((l.map f).flatten).length = 2 * l.length := by
  induction l with
  | nil => simp
  | cons a l ih => simp [ih, h, Nat.mul_succ]; omega

/-- The loop count of an integral run count is that integer. -/
theorem jsLoopCount_natCast (m : ℕ) : jsLoopCount (m : ℚ) = m := by
  simp [jsLoopCount]

/-- The loop count of the fractional run count 5/2 is 3. -/
theorem jsLoopCount_five_halves : jsLoopCount (5 / 2 : ℚ) = 3 := by
  have h : (⌈(5 / 2 : ℚ)⌉ : ℤ) = 3 := by
    rw [Int.ceil_eq_iff]
    norm_num
  rw [jsLoopCount, h]; rfl

/-- The fractional run count 5/2 passes the run-count validation. -/
theorem runsInvalid_five_halves : runsInvalid (.fin (5 / 2)) = false := by
  norm_num [runsInvalid, JSNum.isFinite, JSNum.lt, JSNum.gt]

/-- A run count that passes validation is finite and at most 1000. -/
theorem runsValid_finite_le (r : JSNum) (h : runsInvalid r = false) :
    r.isFinite = true ∧ r.toRat ≤ 1000 := by
  cases r <;>
    simp [runsInvalid, JSNum.isFinite, JSNum.lt, JSNum.gt, JSNum.toRat] at h ⊢
  exact h.2

/-- A run count that passes the stricter boolean-gate validation is finite
and at most 1000. -/
theorem isFlakyRunsValid_finite_le (r : JSNum) (h : isFlakyRunsInvalid r = false) :
    r.isFinite = true ∧ r.toRat ≤ 1000 := by
  cases r <;>
    simp [isFlakyRunsInvalid, JSNum.isFinite, JSNum.lt, JSNum.gt, JSNum.toRat] at h ⊢
  exact h.2

/-- A single run result always relates its flag and its exit code:
`success` holds exactly when the recorded exit code is zero. -/
theorem runTestOnce_success_eq_exit_zero (oc : ExecOutcome) :
    (runTestOnce oc).success = decide ((runTestOnce oc).exitCode = 0) := by
  cases oc with
  | ok status out err => cases status with
    | none => simp [runTestOnce]
    | some k => simp [runTestOnce]
  | threw msg => simp [runTestOnce]

/-- The pass and failure counters of any report are exactly the counts of
successful and unsuccessful entries of its run sequence. -/
theorem detectFlakiness_counts (config : Config) (exec : ExecOracle) :
    (detectFlakiness config exec).passedRuns =
      ((detectFlakiness config exec).runs.countP fun r => r.success) ∧
    (detectFlakiness config exec).failedRuns =
      ((detectFlakiness config exec).runs.countP fun r => !r.success) := by
  by_cases hc : config.testCommand = ""
  · simp [detectFlakiness, hc, errorReport]
  · by_cases hr : runsInvalid (config.runs.getD (.fin 10)) = true
    · simp [detectFlakiness, hc, hr, errorReport]
    · rw [Bool.not_eq_true] at hr
      by_cases ht : thresholdInvalid (config.threshold.getD (.fin 0)) = true
      · simp [detectFlakiness, hc, hr, ht, errorReport]
      · rw [Bool.not_eq_true] at ht
        simp [detectFlakiness, hc, hr, ht]

/-- Claim C1: for counts `passed`, `failed`, `total` of a completed
detection pass and a configured threshold `t`, the Classifier produces
exactly one FlakeStat iff `passed > 0`, `failed > 0` and the failure rate
`(failed/total)*100` strictly exceeds `t` (an exact tie is not flagged),
the FlakeStat carrying the full-precision failure rate; in every other
case it produces no entry. -/
theorem claim1_classifier_flags_iff (passed failed total : ℕ) (t : ℚ) :
    ((0 < passed ∧ 0 < failed ∧ t < ((failed : ℚ) / (total : ℚ)) * 100) →
      classify passed failed total t =
        [{ testName := "Test Suite", passed := passed, failed := failed,
           totalRuns := (total : ℚ), failureRate := ((failed : ℚ) / (total : ℚ)) * 100 }]) ∧
    (¬(0 < passed ∧ 0 < failed ∧ t < ((failed : ℚ) / (total : ℚ)) * 100) →
      classify passed failed total t = []) := by
  constructor
  · rintro ⟨h1, h2, h3⟩
    simp [classify, h1, h2, h3]
  · intro h
    by_cases h1 : 0 < passed ∧ 0 < failed
    · have h3 : ¬ t < ((failed : ℚ) / (total : ℚ)) * 100 := fun hlt =>
        h ⟨h1.1, h1.2, hlt⟩
      simp [classify, h1, h3]
    · simp [classify, h1]

/-- Witness: with 17 passes and 3 failures out of 20 runs the failure rate
is exactly 15 percent: a threshold of 14.9 flags the suite while a
threshold of exactly 15 does not (the spec boundary example). -/
theorem claim1_classifier_flags_iff_witness :
    classify 17 3 20 (149 / 10) =
      [{ testName := "Test Suite", passed := 17, failed := 3,
         totalRuns := 20, failureRate := 15 }] ∧
    classify 17 3 20 15 = [] := by
  constructor
  · have h := (claim1_classifier_flags_iff 17 3 20 (149 / 10)).1 (by norm_num)
    rw [h]
    norm_num
  · exact (claim1_classifier_flags_iff 17 3 20 15).2 (by norm_num)

/-- Claim C5: a spawn-time error of the execution primitive is returned as
data: a failed RunResult with the deterministic exit code 1 and the failure
message captured in stderr (with a fixed fallback text for an empty
message), never a propagated exception; its success flag agrees with that
of any other non-zero exit, and the Detection Loop tallies runs only
through the success flag, so such a result is counted exactly like any
other failure. -/
theorem claim5_spawn_error_as_data (m : String) (config : Config)
    (exec : ExecOracle) :
    runTestOnce (.threw m) =
      { success := false, exitCode := 1, stdout := "",
        stderr := if m = "" then "Command execution failed" else m } ∧
    (∀ (st : Option Int) (o e : String), st ≠ some 0 →
      (runTestOnce (.ok st o e)).success = (runTestOnce (.threw m)).success) ∧
    (detectFlakiness config exec).passedRuns =
      ((detectFlakiness config exec).runs.countP fun r => r.success) ∧
    (detectFlakiness config exec).failedRuns =
      ((detectFlakiness config exec).runs.countP fun r => !r.success) := by
  refine ⟨rfl, ?_, detectFlakiness_counts config exec⟩
  intro st o e hst
  simp [runTestOnce, hst]

/-- Witness: a spawn error with message "boom" evaluates to the failed
result with exit code 1 and stderr "boom", and its success flag agrees
with a run that exited with status 2. -/
theorem claim5_spawn_error_as_data_witness :
    runTestOnce (.threw "boom") =
      { success := false, exitCode := 1, stdout := "", stderr := "boom" } ∧
    (runTestOnce (.ok (some 2) "" "")).success =
      (runTestOnce (.threw "boom")).success := by
  have h := claim5_spawn_error_as_data "boom" { testCommand := "t" } execAllPass
  refine ⟨?_, h.2.1 (some 2) "" "" (by simp)⟩
  rw [h.1]
  simp

/-- A successful report carrying exactly two flaky entries, named
"Suite A" and "Suite B". -/
def twoFlakyReport : DetectionReport :=
  { success := true
    totalRuns := 10
    passedRuns := 5
    failedRuns := 5
    flakyTests :=
      [{ testName := "Suite A", passed := 8, failed := 2, totalRuns := 10, failureRate := 20 },
       { testName := "Suite B", passed := 7, failed := 3, totalRuns := 10, failureRate := 30 }]
    runs := [] }

/-- Claim C9: the minimal formatter returns the newline-joined test names
of the flaky entries of a successful report, the empty string whenever
there is no flaky entry, and the empty string on every error report; on
the concrete report with the two entries "Suite A" and "Suite B" it
returns exactly that two-line string. -/
theorem claim9_formatMinimal (report : DetectionReport) :
    (report.success = true →
      formatMinimal report =
        String.intercalate "\n" (report.flakyTests.map fun t => t.testName)) ∧
    (report.flakyTests = [] → formatMinimal report = "") ∧
    (report.success = false → formatMinimal report = "") ∧
    formatMinimal twoFlakyReport = "Suite A\nSuite B" := by
  refine ⟨?_, ?_, ?_, ?_⟩
  · intro h
    by_cases hf : report.flakyTests.length = 0
    · rw [List.length_eq_zero] at hf
      simp [formatMinimal, h, hf]
      rfl
    · simp [formatMinimal, h, hf]
  · intro h
    simp [formatMinimal, h]
  · intro h
    simp [formatMinimal, h]
  · simp [formatMinimal, twoFlakyReport]
    rfl

/-- Witness: the two-entry report is a successful report whose minimal
format is the newline-join of its test names, and the error report for an
invalid command formats to the empty string. -/
theorem claim9_formatMinimal_witness :
    twoFlakyReport.success = true ∧
    formatMinimal twoFlakyReport =
      String.intercalate "\n" (twoFlakyReport.flakyTests.map fun t => t.testName) ∧
    (errorReport "Test command must be a non-empty string").success = false ∧
    formatMinimal (errorReport "Test command must be a non-empty string") = "" := by
  refine ⟨rfl, (claim9_formatMinimal twoFlakyReport).1 rfl, rfl,
    (claim9_formatMinimal (errorReport "Test command must be a non-empty string")).2.2.1 rfl⟩

/-- Claim C10: in every report the run entries never let the flag and the
exit code disagree: `success` holds exactly when the recorded exit code
is 0; a missing exit status (killed by a signal) is normalized to exit
code 1 with `success = false`, and a spawn error likewise records exit
code 1 with `success = false`. -/
theorem claim10_success_iff_exit_zero (config : Config) (exec : ExecOracle)
    (o e m : String) :
    ((detectFlakiness config exec).runs.all fun r =>
      r.success == decide (r.exitCode = 0)) = true ∧
    runTestOnce (.ok none o e) =
      { success := false, exitCode := 1, stdout := o, stderr := e } ∧
    (runTestOnce (.threw m)).success = false ∧
    (runTestOnce (.threw m)).exitCode = 1 := by
  refine ⟨?_, by simp [runTestOnce], rfl, rfl⟩
  by_cases hc : config.testCommand = ""
  · simp [detectFlakiness, hc, errorReport]
  · by_cases hr : runsInvalid (config.runs.getD (.fin 10)) = true
    · simp [detectFlakiness, hc, hr, errorReport]
    · rw [Bool.not_eq_true] at hr
      by_cases ht : thresholdInvalid (config.threshold.getD (.fin 0)) = true
      · simp [detectFlakiness, hc, hr, ht, errorReport]
      · rw [Bool.not_eq_true] at ht
        simp only [detectFlakiness, hc, hr, ht, if_false, if_neg, Bool.false_eq_true,
          not_false_eq_true]
        rw [List.all_eq_true]
        intro r hrm
        rw [List.mem_map] at hrm
        obtain ⟨i, _, hi⟩ := hrm
        rw [← hi, runTestOnce_success_eq_exit_zero]
        simp

/-- Basic shape of a report after a passed validation: the detection
succeeded, `totalRuns` records the configured value, the run sequence has
one entry per loop iteration and the two counters partition it. -/
theorem detectFlakiness_valid_counts (config : Config) (exec : ExecOracle)
    (hc : config.testCommand ≠ "")
    (hr : runsInvalid (config.runs.getD (.fin 10)) = false)
    (ht : thresholdInvalid (config.threshold.getD (.fin 0)) = false) :
    (detectFlakiness config exec).success = true ∧
    (detectFlakiness config exec).totalRuns =
      (config.runs.getD (.fin 10)).toRat ∧
    (detectFlakiness config exec).runs.length =
      jsLoopCount (config.runs.getD (.fin 10)).toRat ∧
    (detectFlakiness config exec).passedRuns +
      (detectFlakiness config exec).failedRuns =
      (detectFlakiness config exec).runs.length := by
  refine ⟨?_, ?_, ?_, ?_⟩ <;>
    simp [detectFlakiness, hc, hr, ht, Function.comp]
  have h2 := countP_add_countP_not (fun i => (runTestOnce (exec i)).success)
    (List.range (jsLoopCount (config.runs.getD (.fin 10)).toRat))
  simpa using h2

/-- A report that records a successful detection can only come from the
branch in which all three validations passed. -/
theorem detectFlakiness_success_valid (config : Config) (exec : ExecOracle)
    (hs : (detectFlakiness config exec).success = true) :
    config.testCommand ≠ "" ∧
    runsInvalid (config.runs.getD (.fin 10)) = false ∧
    thresholdInvalid (config.threshold.getD (.fin 0)) = false := by
  by_cases hc : config.testCommand = ""
  · simp [detectFlakiness, hc, errorReport] at hs
  · by_cases hr : runsInvalid (config.runs.getD (.fin 10)) = true
    · simp [detectFlakiness, hc, hr, errorReport] at hs
    · rw [Bool.not_eq_true] at hr
      by_cases ht : thresholdInvalid (config.threshold.getD (.fin 0)) = true
      · simp [detectFlakiness, hc, hr, ht, errorReport] at hs
      · rw [Bool.not_eq_true] at ht
        exact ⟨hc, hr, ht⟩

/-- A failed detection always carries an empty run sequence. -/
theorem detectFlakiness_failure_empty_runs (config : Config)
    (exec : ExecOracle)
    (hs : (detectFlakiness config exec).success = false) :
    (detectFlakiness config exec).runs = [] := by
  by_cases hc : config.testCommand = ""
  · simp [detectFlakiness, hc, errorReport]
  · by_cases hr : runsInvalid (config.runs.getD (.fin 10)) = true
    · simp [detectFlakiness, hc, hr, errorReport]
    · rw [Bool.not_eq_true] at hr
      by_cases ht : thresholdInvalid (config.threshold.getD (.fin 0)) = true
      · simp [detectFlakiness, hc, hr, ht, errorReport]
      · rw [Bool.not_eq_true] at ht
        rw [(detectFlakiness_valid_counts config exec hc hr ht).1] at hs
        cases hs

/-- Claim C4 (amended): whenever the configured run count is
integer-valued (including the default 10), a report with `success = true`
satisfies `passedRuns + failedRuns = totalRuns` with a run sequence of
exactly `totalRuns` entries, and a report with `success = false` has an
empty run sequence.  The restriction to integer run counts is forced by
the counterexample: the validator accepts any finite number in [1, 1000],
and a fractional value makes the loop run `ceil` many times while
`totalRuns` records the fraction. -/
theorem claim4_report_invariants_integer_runs (config : Config)
    (exec : ExecOracle)
    (hint : config.runs = none ∨ ∃ m : ℕ, config.runs = some (.fin (m : ℚ))) :
    ((detectFlakiness config exec).success = true →
      ((detectFlakiness config exec).passedRuns : ℚ) +
          ((detectFlakiness config exec).failedRuns : ℚ) =
          (detectFlakiness config exec).totalRuns ∧
        ((detectFlakiness config exec).runs.length : ℚ) =
          (detectFlakiness config exec).totalRuns) ∧
    ((detectFlakiness config exec).success = false →
      (detectFlakiness config exec).runs = []) := by
  refine ⟨?_, detectFlakiness_failure_empty_runs config exec⟩
  intro hs
  obtain ⟨hc, hr, ht⟩ := detectFlakiness_success_valid config exec hs
  obtain ⟨-, htot, hlen, hsum⟩ :=
    detectFlakiness_valid_counts config exec hc hr ht
  obtain ⟨m, hm⟩ : ∃ m : ℕ, (config.runs.getD (.fin 10)).toRat = (m : ℚ) := by
    rcases hint with h | ⟨m, h⟩
    · exact ⟨10, by rw [h]; norm_num [JSNum.toRat]⟩
    · exact ⟨m, by rw [h]; rfl⟩
  have hlen2 : (detectFlakiness config exec).runs.length = m := by
    rw [hlen, hm, jsLoopCount_natCast]
  constructor
  · rw [htot, hm]
    have : (detectFlakiness config exec).passedRuns +
        (detectFlakiness config exec).failedRuns = m := by
      rw [hsum, hlen2]
    exact_mod_cast this
  · rw [htot, hm, hlen2]

/-- A configuration with the integral run count 4 (used to evaluate the
amended claim C4 concretely). -/
def fourRunConfig : Config :=
  { testCommand := "npm test", runs := some (.fin ((4 : ℕ) : ℚ)) }

/-- Witness: the amended claim evaluated at a concrete configuration with
4 runs against the all-passing oracle. -/
theorem claim4_report_invariants_integer_runs_witness :
    ((detectFlakiness fourRunConfig execAllPass).success = true →
      ((detectFlakiness fourRunConfig execAllPass).passedRuns : ℚ) +
          ((detectFlakiness fourRunConfig execAllPass).failedRuns : ℚ) =
          (detectFlakiness fourRunConfig execAllPass).totalRuns ∧
        ((detectFlakiness fourRunConfig execAllPass).runs.length : ℚ) =
          (detectFlakiness fourRunConfig execAllPass).totalRuns) ∧
    ((detectFlakiness fourRunConfig execAllPass).success = false →
      (detectFlakiness fourRunConfig execAllPass).runs = []) :=
  claim4_report_invariants_integer_runs fourRunConfig execAllPass
    (Or.inr ⟨4, rfl⟩)

/-- A configuration with the fractional run count 5/2, which passes the
run-count validation. -/
def fracRunConfig : Config :=
  { testCommand := "npm test", runs := some (.fin (5 / 2)) }

/-- The fractional configuration evaluates to a successful report whose
loop ran 3 times while `totalRuns` records 5/2. -/
theorem detectFlakiness_fracRunConfig :
    detectFlakiness fracRunConfig execAllPass =
      { success := true, totalRuns := 5 / 2, passedRuns := 3, failedRuns := 0,
        flakyTests := [], runs := [{ success := true, exitCode := 0, stdout := "", stderr := "" },
                 { success := true, exitCode := 0, stdout := "", stderr := "" },
                 { success := true, exitCode := 0, stdout := "", stderr := "" }] } := by
  simp only [fracRunConfig, detectFlakiness, runsInvalid_five_halves,
    Option.getD_some, Option.getD_none]
  norm_num [thresholdInvalid, JSNum.isFinite, JSNum.lt, JSNum.gt, JSNum.toRat,
    jsLoopCount_five_halves, List.range_succ, execAllPass, runTestOnce,
    List.countP_cons]
  exact fun h => absurd h (by decide)

/-- Counterexample to claim C4 as stated: the configuration with the
fractional run count 5/2 (accepted by the validator) yields a report with
`success = true`, `passedRuns + failedRuns = 3` and a 3-entry run
sequence, but `totalRuns = 5/2`. -/
theorem claim4_counterexample :
    (detectFlakiness fracRunConfig execAllPass).success = true ∧
    ¬ (((detectFlakiness fracRunConfig execAllPass).passedRuns : ℚ) +
        ((detectFlakiness fracRunConfig execAllPass).failedRuns : ℚ) =
        (detectFlakiness fracRunConfig execAllPass).totalRuns) ∧
    ¬ (((detectFlakiness fracRunConfig execAllPass).runs.length : ℚ) =
        (detectFlakiness fracRunConfig execAllPass).totalRuns) := by
  rw [detectFlakiness_fracRunConfig]
  norm_num

/-- Claim C3: the full-report entry point turns each of the listed
out-of-range run counts (0, 1001, NaN, Infinity) and each of the listed
out-of-range thresholds (-1, 101, NaN) into an error Result whose message
is human-readable, and it does so without consulting the execution oracle
(no process is spawned: the returned Result is the same for every oracle);
an absent threshold behaves exactly like an explicit threshold of 0. -/
theorem claim3_detect_validates_config :
    (∀ (test : String) (v : Bool) (th : Option JSNum) (r : JSNum)
        (exec exec2 : ExecOracle),
      r ∈ ([.fin 0, .fin 1001, .nan, .posInf] : List JSNum) →
        (∃ msg, detect { test := test, runs := some r, verbose := v, threshold := th } exec = .err msg) ∧
        detect { test := test, runs := some r, verbose := v, threshold := th } exec =
          detect { test := test, runs := some r, verbose := v, threshold := th } exec2) ∧
    (∀ (test : String) (v : Bool) (rr : Option JSNum) (t : JSNum)
        (exec exec2 : ExecOracle),
      t ∈ ([.fin (-1), .fin 101, .nan] : List JSNum) →
        (∃ msg, detect { test := test, runs := rr, verbose := v, threshold := some t } exec = .err msg) ∧
        detect { test := test, runs := rr, verbose := v, threshold := some t } exec =
          detect { test := test, runs := rr, verbose := v, threshold := some t } exec2) ∧
    (∀ (test : String) (v : Bool) (rr : Option JSNum) (exec : ExecOracle),
      detect { test := test, runs := rr, verbose := v, threshold := none }
          exec =
        detect { test := test, runs := rr, verbose := v, threshold := some (.fin 0) } exec) := by
  refine ⟨?_, ?_, ?_⟩
  · intro test v th r exec exec2 hmem
    have hr : runsInvalid r = true := by
      fin_cases hmem <;>
        norm_num [runsInvalid, JSNum.isFinite, JSNum.lt, JSNum.gt]
    by_cases hc : test = ""
    · exact ⟨⟨"Test command must be a non-empty string", by simp [detect, hc]⟩,
        by simp [detect, hc]⟩
    · exact ⟨⟨"Runs must be between 1 and 1000", by simp [detect, hc, hr]⟩,
        by simp [detect, hc, hr]⟩
  · intro test v rr t exec exec2 hmem
    have ht : thresholdInvalid t = true := by
      fin_cases hmem <;>
        norm_num [thresholdInvalid, JSNum.isFinite, JSNum.lt, JSNum.gt]
    by_cases hc : test = ""
    · exact ⟨⟨"Test command must be a non-empty string", by simp [detect, hc]⟩,
        by simp [detect, hc]⟩
    · by_cases hr : runsInvalid (rr.getD (.fin 10)) = true
      · exact ⟨⟨"Runs must be between 1 and 1000", by simp [detect, hc, hr]⟩,
        by simp [detect, hc, hr]⟩
      · rw [Bool.not_eq_true] at hr
        refine ⟨⟨"Threshold must be between 0 and 100", ?_⟩, ?_⟩ <;>
          simp [detect, hc, hr, detectFlakiness, ht, errorReport]
  · intro test v rr exec
    simp only [detect, detectFlakiness, detectEvents, Option.getD_some,
      Option.getD_none]

/-- Witness: the full-report entry point at a NaN run count returns an
error Result independent of the oracle, at threshold 101 returns an error
Result, and an absent threshold agrees with the explicit threshold 0. -/
theorem claim3_detect_validates_config_witness :
    (∃ msg, detect { test := "npm test", runs := some .nan, verbose := false, threshold := none } execAllPass = .err msg) ∧
    detect { test := "npm test", runs := some .nan, verbose := false, threshold := none } execAllPass =
      detect { test := "npm test", runs := some .nan, verbose := false, threshold := none } execAllFail ∧
    (∃ msg, detect { test := "npm test", runs := some (.fin 5), verbose := false, threshold := some (.fin 101) } execAllPass =
        .err msg) ∧
    detect { test := "npm test", runs := some (.fin 5), verbose := false, threshold := none } execAllPass =
      detect { test := "npm test", runs := some (.fin 5), verbose := false, threshold := some (.fin 0) } execAllPass := by
  have h1 := claim3_detect_validates_config.1 "npm test" false none .nan
    execAllPass execAllFail
    (List.mem_cons_of_mem _ (List.mem_cons_of_mem _ (List.mem_cons_self _ _)))
  have h2 := claim3_detect_validates_config.2.1 "npm test" false
    (some (.fin 5)) (.fin 101) execAllPass execAllPass
    (List.mem_cons_of_mem _ (List.mem_cons_self _ _))
  have h3 := claim3_detect_validates_config.2.2 "npm test" false
    (some (.fin 5)) execAllPass
  exact ⟨h1.1, h1.2, h2.1, h3⟩

/-- When the command and the run count are valid, a detection pass either
fails on the threshold validation or succeeds. -/
theorem detectFlakiness_threshold_or_success (config : Config)
    (exec : ExecOracle) (hc : config.testCommand ≠ "")
    (hr : runsInvalid (config.runs.getD (.fin 10)) = false) :
    detectFlakiness config exec =
      errorReport "Threshold must be between 0 and 100" ∨
    (detectFlakiness config exec).success = true := by
  by_cases ht : thresholdInvalid (config.threshold.getD (.fin 0)) = true
  · left
    simp [detectFlakiness, hc, hr, ht]
  · right
    rw [Bool.not_eq_true] at ht
    exact (detectFlakiness_valid_counts config exec hc hr ht).1

/-- Claim C7: constructing a compiled detector from an empty command
signals immediately by throwing (the `Except.error` of construction, not a
Result), while a non-empty command compiles to the detector that captures
the options; each `run` call validates only the count, returning a failure
Result on an out-of-range count, and never re-validates the captured
command: no `run` call on a successfully constructed detector can produce
the command-validation error. -/
theorem claim7_compiled_detector_two_tier :
    (∀ (v : Bool) (th : Option JSNum),
      compileDetector { test := "", verbose := v, threshold := th } =
        .error "Test command must be a non-empty string") ∧
    (∀ options : CompileOptions, options.test ≠ "" →
      compileDetector options = .ok { options := options }) ∧
    (∀ (d : CompiledDetector) (runs : JSNum) (exec : ExecOracle),
      runsInvalid runs = true →
      d.run runs exec = .err "Runs must be between 1 and 1000") ∧
    (∀ (options : CompileOptions) (d : CompiledDetector),
      compileDetector options = .ok d → ∀ (runs : JSNum) (exec : ExecOracle),
      d.run runs exec ≠ .err "Test command must be a non-empty string") := by
  refine ⟨?_, ?_, ?_, ?_⟩
  · intro v th
    simp [compileDetector]
  · intro options h
    simp [compileDetector, h]
  · intro d runs exec h
    simp [CompiledDetector.run, h]
  · intro options d hok runs exec habs
    by_cases h0 : options.test = ""
    · simp [compileDetector, h0] at hok
    · simp [compileDetector, h0] at hok
      subst hok
      by_cases hrr : runsInvalid runs = true
      · simp [CompiledDetector.run, hrr] at habs
      · rw [Bool.not_eq_true] at hrr
        rcases detectFlakiness_threshold_or_success
            { testCommand := options.test, runs := some runs, verbose := options.verbose, threshold := options.threshold }
            exec h0 hrr with hth | hsucc
        · simp [CompiledDetector.run, hrr, hth, errorReport] at habs
        · simp [CompiledDetector.run, hrr, hsucc] at habs

/-- Witness: compiling the empty command throws; compiling "npm test"
succeeds, and on the compiled detector `run 0` returns the run-count
failure Result, which is not the command-validation error. -/
theorem claim7_compiled_detector_two_tier_witness :
    compileDetector { test := "", verbose := false, threshold := none } =
      .error "Test command must be a non-empty string" ∧
    compileDetector { test := "npm test", verbose := false, threshold := none } =
      .ok { options := { test := "npm test", verbose := false, threshold := none } } ∧
    CompiledDetector.run
        { options := { test := "npm test", verbose := false, threshold := none } } (.fin 0) execAllPass =
      .err "Runs must be between 1 and 1000" ∧
    CompiledDetector.run
        { options := { test := "npm test", verbose := false, threshold := none } } (.fin 0) execAllPass ≠
      .err "Test command must be a non-empty string" := by
  have hrun0 : runsInvalid (.fin 0) = true := by
    norm_num [runsInvalid, JSNum.isFinite, JSNum.lt, JSNum.gt]
  refine ⟨claim7_compiled_detector_two_tier.1 false none, ?_, ?_, ?_⟩
  · exact claim7_compiled_detector_two_tier.2.1 _ (by decide)
  · exact claim7_compiled_detector_two_tier.2.2.1 _ _ execAllPass hrun0
  · exact claim7_compiled_detector_two_tier.2.2.2 _ _
      (claim7_compiled_detector_two_tier.2.1 _ (by decide)) (.fin 0)
      execAllPass

/-- Claim C8: the boolean-gate entry point rejects a run count of 1 with
its stricter error message while the full-report entry point accepts it,
and an accepted run count is always finite and at most 1000 on both entry
points. -/
theorem claim8_isFlaky_requires_two_runs :
    (∀ (test : String) (th : Option JSNum) (exec : ExecOracle), test ≠ "" →
      isFlaky { test := test, runs := some (.fin 1), threshold := th } exec =
        .err "Runs must be between 2 and 1000") ∧
    (∀ (test : String) (v : Bool) (th : Option JSNum) (exec : ExecOracle),
      test ≠ "" → thresholdInvalid (th.getD (.fin 0)) = false →
      ∃ rep, detect { test := test, runs := some (.fin 1), verbose := v, threshold := th } exec = .ok rep) ∧
    (∀ (opts : DetectOptions) (exec : ExecOracle) (rep : DetectionReport),
      detect opts exec = .ok rep →
      (opts.runs.getD (.fin 10)).isFinite = true ∧
        (opts.runs.getD (.fin 10)).toRat ≤ 1000) ∧
    (∀ (opts : IsFlakyOptions) (exec : ExecOracle) (b : Bool),
      isFlaky opts exec = .ok b →
      (opts.runs.getD (.fin 5)).isFinite = true ∧
        (opts.runs.getD (.fin 5)).toRat ≤ 1000) := by
  refine ⟨?_, ?_, ?_, ?_⟩
  · intro test th exec hc
    have h1 : isFlakyRunsInvalid (.fin 1) = true := by
      norm_num [isFlakyRunsInvalid, JSNum.isFinite, JSNum.lt, JSNum.gt]
    simp [isFlaky, hc, h1]
  · intro test v th exec hc ht
    have hr : runsInvalid (.fin 1) = false := by
      norm_num [runsInvalid, JSNum.isFinite, JSNum.lt, JSNum.gt]
    have hs := (detectFlakiness_valid_counts
      { testCommand := test, runs := some (.fin 1), verbose := v, threshold := th } exec hc hr ht).1
    refine ⟨detectFlakiness
      { testCommand := test, runs := some (.fin 1), verbose := v, threshold := th } exec, ?_⟩
    simp [detect, hc, hr, hs]
  · intro opts exec rep h
    by_cases hc : opts.test = ""
    · simp [detect, hc] at h
    · by_cases hr : runsInvalid (opts.runs.getD (.fin 10)) = true
      · simp [detect, hc, hr] at h
      · rw [Bool.not_eq_true] at hr
        exact runsValid_finite_le _ hr
  · intro opts exec b h
    by_cases hc : opts.test = ""
    · simp [isFlaky, hc] at h
    · by_cases hr : isFlakyRunsInvalid (opts.runs.getD (.fin 5)) = true
      · simp [isFlaky, hc, hr] at h
      · rw [Bool.not_eq_true] at hr
        exact isFlakyRunsValid_finite_le _ hr

/-- Witness: with a run count of 1 the boolean gate rejects while the
full-report entry point accepts, and the accepted default run count of the
full-report entry point is finite and at most 1000. -/
theorem claim8_isFlaky_requires_two_runs_witness :
    isFlaky { test := "npm test", runs := some (.fin 1), threshold := none }
        execAllPass = .err "Runs must be between 2 and 1000" ∧
    (∃ rep, detect { test := "npm test", runs := some (.fin 1), verbose := false, threshold := none } execAllPass = .ok rep) ∧
    ((({ test := "npm test", runs := some (.fin 1), verbose := false, threshold := none } : DetectOptions).runs.getD
        (.fin 10)).isFinite = true ∧
      (({ test := "npm test", runs := some (.fin 1), verbose := false, threshold := none } : DetectOptions).runs.getD
        (.fin 10)).toRat ≤ 1000) := by
  have hth : thresholdInvalid ((none : Option JSNum).getD (.fin 0)) = false := by
    norm_num [thresholdInvalid, JSNum.isFinite, JSNum.lt, JSNum.gt]
  have h2 := claim8_isFlaky_requires_two_runs.2.1 "npm test" false none
    execAllPass (by decide) hth
  obtain ⟨rep, hrep⟩ := h2
  exact ⟨claim8_isFlaky_requires_two_runs.1 "npm test" none execAllPass
      (by decide),
    ⟨rep, hrep⟩,
    claim8_isFlaky_requires_two_runs.2.2.1 _ execAllPass rep hrep⟩

/-- Claim C2: after a passed validation with loop count `n`, the Detection
Loop emits exactly `1 + n + n + 1` progress events to the supplied
callback, in the fixed order: `start` with the total, then for each run
`i` in `1..n` a `run-start` followed by the `run-complete` carrying that
run's success flag and exit code, then the final `complete` event carrying
the full report. -/
theorem claim2_progress_event_stream (config : Config) (exec : ExecOracle)
    (hc : config.testCommand ≠ "")
    (hr : runsInvalid (config.runs.getD (.fin 10)) = false)
    (ht : thresholdInvalid (config.threshold.getD (.fin 0)) = false) :
    ∃ n, n = jsLoopCount (config.runs.getD (.fin 10)).toRat ∧
      detectEvents config exec =
        ProgressEvent.start n ::
          ((((List.range n).map fun i =>
              [ProgressEvent.runStart (i + 1) n,
               ProgressEvent.runComplete (i + 1) n
                 (runTestOnce (exec i)).success
                 (runTestOnce (exec i)).exitCode]).flatten) ++
            [ProgressEvent.complete (detectFlakiness config exec)]) ∧
      (detectEvents config exec).length = 1 + n + n + 1 := by
  refine ⟨_, rfl, ?_, ?_⟩
  · simp [detectEvents, hc, hr, ht]
  · have hlen := length_flatten_pairs
      (fun i =>
        [ProgressEvent.runStart (i + 1)
           (jsLoopCount (config.runs.getD (.fin 10)).toRat),
         ProgressEvent.runComplete (i + 1)
           (jsLoopCount (config.runs.getD (.fin 10)).toRat)
           (runTestOnce (exec i)).success
           (runTestOnce (exec i)).exitCode])
      (List.range (jsLoopCount (config.runs.getD (.fin 10)).toRat))
      (fun b => rfl)
    simp [detectEvents, hc, hr, ht, hlen]
    omega

/-- A valid two-run configuration used to evaluate the event stream. -/
def streamConfig : Config :=
  { testCommand := "npm test", runs := some (.fin ((2 : ℕ) : ℚ)) }

/-- Witness: a detection pass over 2 runs emits exactly 1 + 2 + 2 + 1
progress events. -/
theorem claim2_progress_event_stream_witness :
    (detectEvents streamConfig execAllPass).length = 1 + 2 + 2 + 1 := by
  obtain ⟨n, hn, -, hlen⟩ := claim2_progress_event_stream streamConfig
    execAllPass (by decide)
    (by norm_num [streamConfig, runsInvalid, JSNum.isFinite, JSNum.lt,
      JSNum.gt])
    (by norm_num [streamConfig, thresholdInvalid, JSNum.isFinite, JSNum.lt,
      JSNum.gt])
  have hn2 : n = 2 := by
    rw [hn]
    simp only [streamConfig, Option.getD_some, JSNum.toRat]
    rw [jsLoopCount_natCast]
  rw [hlen, hn2]

/-- Emitting through the try/catch wrapper never propagates an exception,
whatever the callback does. -/
theorem forM_safeEmit (cb : Callback) (l : List ProgressEvent) :
    l.forM (fun e => safeEmit cb e) = .ok () := by
  induction l with
  | nil => rfl
  | cons a l ih =>
    have ha : safeEmit cb a = .ok () := by
      unfold safeEmit
      cases cb a <;> rfl
    simp [List.forM_cons, ha, ih]
    rfl

/-- Claim C6: an exception raised inside the user-supplied progress
callback is caught and discarded at the point of invocation: the Detection
Loop with any callback returns (as a normal value, never an exception) the
very report of the callback-free detection, identical to the run with a
callback that never throws. -/
theorem claim6_callback_exceptions_swallowed (config : Config)
    (cb : Callback) (exec : ExecOracle) :
    detectFlakinessWithCallback config cb exec =
      .ok (detectFlakiness config exec) ∧
    detectFlakinessWithCallback config cb exec =
      detectFlakinessWithCallback config (fun _ => .ok ()) exec := by
  have h1 := forM_safeEmit cb (detectEvents config exec)
  have h2 := forM_safeEmit (fun _ => .ok ()) (detectEvents config exec)
  constructor
  · simp [detectFlakinessWithCallback, h1]
  · simp [detectFlakinessWithCallback, h1, h2]

end Flaky
